import Mathlib

/-
Verification of the 7am weather-notification service (main.go): a shallow
embedding of the subscription registry, the summary-generation run, and the
per-location fan-out dispatcher, with theorems about the behaviour each
component exhibits.

The embedding follows the Go source directly:
* location keys, the persisted locations column, and push-capability blobs
  are strings; subscription ids are modelled as opaque naturals;
* the sqlite subscriptions table is a list of rows; the in-memory index
  map[string][]*registeredSubscription is a function from location key to
  bucket list;
* Go strings.Split(s, ",") and strings.Join(ls, ",") are modelled on the
  character lists underlying the strings;
* slices.Compact, which removes consecutive runs of equal elements, is
  modelled as goCompact.
-/

namespace SevenAM

/-- Go strings.Split on the separator ",": splitting the empty string yields
a list holding one empty element, and every comma opens a new element. -/
def goSplitComma : List Char → List (List Char)
  | [] => [[]]
  | c :: rest =>
    if c = ',' then [] :: goSplitComma rest
    else
      match goSplitComma rest with
      | r :: rs => (c :: r) :: rs
      | [] => [[c]]

/-- Go strings.Join with separator ",". -/
def goJoinComma : List (List Char) → List Char
  | [] => []
  | [x] => x
  | x :: y :: rest => x ++ ',' :: goJoinComma (y :: rest)

/-- String-level wrapper of goSplitComma, as used by loadSubscriptions. -/
def goSplit (s : String) : List String :=
  (goSplitComma s.data).map (fun cs => ⟨cs⟩)

/-- String-level wrapper of goJoinComma, as used when persisting locations. -/
def goJoin (ls : List String) : String :=
  ⟨goJoinComma (ls.map String.data)⟩

/-- Go slices.Compact: collapses consecutive runs of equal elements. -/
def goCompact {α : Type} [DecidableEq α] : List α → List α
  | [] => []
  | [x] => [x]
  | x :: y :: rest =>
    if x = y then goCompact (y :: rest) else x :: goCompact (y :: rest)

theorem goSplitComma_ne_nil (cs : List Char) : goSplitComma cs ≠ [] := by
  cases cs with
  | nil => simp [goSplitComma]
  | cons c rest =>
    simp only [goSplitComma]
    split
    · simp
    · cases h : goSplitComma rest <;> simp

theorem goSplitComma_comma_free (x : List Char) (hx : ',' ∉ x) :
    goSplitComma x = [x] := by
  induction x with
  | nil => simp [goSplitComma]
  | cons c rest ih =>
    have hc : ¬ c = ',' := fun h => hx (h ▸ List.mem_cons_self c rest)
    have hrest : ',' ∉ rest := fun h => hx (List.mem_cons_of_mem c h)
    simp only [goSplitComma, if_neg hc, ih hrest]

theorem goSplitComma_append (x rest : List Char) (hx : ',' ∉ x) :
    goSplitComma (x ++ ',' :: rest) = x :: goSplitComma rest := by
  induction x with
  | nil => simp [goSplitComma]
  | cons c t ih =>
    have hc : ¬ c = ',' := fun h => hx (h ▸ List.mem_cons_self c t)
    have ht : ',' ∉ t := fun h => hx (List.mem_cons_of_mem c h)
    simp only [List.cons_append, goSplitComma, if_neg hc, List.append_eq, ih ht]

theorem goSplitComma_goJoinComma (ls : List (List Char))
    (h : ∀ l ∈ ls, ',' ∉ l) :
    goSplitComma (goJoinComma ls) = if ls = [] then [[]] else ls := by
  induction ls with
  | nil => simp [goJoinComma, goSplitComma]
  | cons x tail ih =>
    cases tail with
    | nil =>
      simp only [goJoinComma, if_neg (by simp : ¬ ([x] : List (List Char)) = [])]
      exact goSplitComma_comma_free x (h x (List.mem_cons_self x []))
    | cons y rest =>
      have hx : ',' ∉ x := h x (List.mem_cons_self x (y :: rest))
      have htail : ∀ l ∈ y :: rest, ',' ∉ l :=
        fun l hl => h l (List.mem_cons_of_mem x hl)
      simp only [goJoinComma, goSplitComma_append x _ hx, ih htail]
      simp

theorem mem_goCompact {α : Type} [DecidableEq α] {y : α} :
    ∀ {l : List α}, y ∈ goCompact l → y ∈ l := by
  intro l
  induction l with
  | nil => simp [goCompact]
  | cons a t ih =>
    cases t with
    | nil => simp [goCompact]
    | cons b t2 =>
      simp only [goCompact]
      split
      · intro h
        exact List.mem_cons_of_mem a (ih h)
      · intro h
        rcases List.mem_cons.mp h with h | h
        · exact h ▸ List.mem_cons_self a (b :: t2)
        · exact List.mem_cons_of_mem a (ih h)

theorem goCompact_append_singleton {α : Type} [DecidableEq α] (x : α) :
    ∀ (l : List α), x ∉ l → goCompact (l ++ [x]) = goCompact l ++ [x] := by
  intro l
  induction l with
  | nil => simp [goCompact]
  | cons a t ih =>
    intro h
    have ha : ¬ a = x := fun hax => h (hax ▸ List.mem_cons_self a t)
    have ht : x ∉ t := fun hxt => h (List.mem_cons_of_mem a hxt)
    cases t with
    | nil => simp [goCompact, fun hx : a = x => ha hx]
    | cons b t2 =>
      simp only [List.cons_append, goCompact]
      rw [show (b :: t2) ++ [x] = b :: (t2 ++ [x]) from rfl] at *
      split <;> simp [ih ht]

theorem goCompact_append_pair {α : Type} [DecidableEq α] (x : α) :
    ∀ (l : List α), goCompact (l ++ [x, x]) = goCompact (l ++ [x]) := by
  intro l
  induction l with
  | nil => simp [goCompact]
  | cons a t ih =>
    cases t with
    | nil =>
      simp only [List.cons_append, List.nil_append, goCompact]
      split <;> simp [goCompact]
    | cons b t2 =>
      simp only [List.cons_append, goCompact] at *
      split <;> simp [ih]

/-- Errors surfaced by the database/sql layer. errNoRows is sql.ErrNoRows;
rowsClosed is the error Rows.Scan returns when Next found no row and closed
the result set. -/
inductive SQLError where
  | errNoRows
  | rowsClosed
deriving DecidableEq

/-- Model of errors.Is(err, sql.ErrNoRows), the test the HTTP handler uses
to pick a 404 over a 500. -/
def errorsIsNoRows : SQLError → Bool
  | .errNoRows => true
  | .rowsClosed => false

/-- registeredSubscription: id, push-capability JSON blob, location keys. -/
structure RegisteredSubscription where
  id : Nat
  subscription : String
  locations : List String
deriving DecidableEq

/-- One row of the sqlite subscriptions table: id, the comma-joined
locations TEXT column, and the subscription_json TEXT column. -/
structure DBRow where
  id : Nat
  locations : String
  subscriptionJson : String
deriving DecidableEq

/-- The shared state the registry operations touch: the subscriptions table
and the in-memory index map from location key to bucket. -/
structure RegistryState where
  db : List DBRow
  subscriptions : String → List RegisteredSubscription

/-- updateSubscription: the request body for creating or updating a
registration (push capability blob, locations, removeLocations). -/
structure UpdateSubscriptionReq where
  subscription : String
  locations : List String
  removeLocations : List String

/-- Append one registration to the bucket of one location key. -/
def bucketAppend (idx : String → List RegisteredSubscription) (l : String)
    (r : RegisteredSubscription) : String → List RegisteredSubscription :=
  fun l2 => if l2 = l then idx l2 ++ [r] else idx l2

/-- slices.DeleteFunc by id on the bucket of one location key. -/
def bucketRemove (idx : String → List RegisteredSubscription) (l : String)
    (rid : Nat) : String → List RegisteredSubscription :=
  fun l2 => if l2 = l then (idx l2).filter (fun s => decide (s.id ≠ rid)) else idx l2

/-- How a slice reads after slices.Compact has run on it: since Go 1.22,
Compact moves the kept elements to the front of the same backing array and
zeroes the elements between the new and the old length, so the
original-length slice reads as the compacted prefix padded with the string
zero value, the empty string. -/
def compactMutatedView (l : List String) : List String :=
  goCompact l ++ List.replicate (l.length - (goCompact l).length) ""

/-- registerSubscription: compacts the requested locations, inserts the row
with the comma-joined compacted list, then appends the registration to the
index bucket of every element of the request list sub.Locations — which,
after the in-place slices.Compact, reads as the compacted prefix padded
with empty-string keys up to its original length. -/
def registerSubscription (st : RegistryState) (req : UpdateSubscriptionReq)
    (newId : Nat) : RegistryState × RegisteredSubscription :=
  let locs := goCompact req.locations
  let reg : RegisteredSubscription := ⟨newId, req.subscription, locs⟩
  let db2 := st.db ++ [⟨newId, goJoin locs, req.subscription⟩]
  let idx2 := (compactMutatedView req.locations).foldl
    (fun idx l => bucketAppend idx l reg) st.subscriptions
  (⟨db2, idx2⟩, reg)

/-- The location-set pipeline of updateRegisteredSubscription: append the
added locations to the existing list, delete every element named by
removeLocations, then collapse adjacent duplicates with slices.Compact. -/
def newLocations (existing add remove : List String) : List String :=
  goCompact ((existing ++ add).filter (fun l => decide (l ∉ remove)))

/-- updateRegisteredSubscription: reads the persisted locations column for
the id (when no row exists, Rows.Scan after an exhausted Next yields the
rows-closed error, not sql.ErrNoRows), recomputes the location set, writes
the row back, and incrementally updates the index: append the new record to
the bucket of every added location, then delete the id from the bucket of
every removed location. -/
def updateRegisteredSubscription (st : RegistryState) (id : Nat)
    (req : UpdateSubscriptionReq) :
    Except SQLError (RegistryState × RegisteredSubscription) :=
  match st.db.find? (fun r => decide (r.id = id)) with
  | none => .error .rowsClosed
  | some row =>
    let locs := newLocations (goSplit row.locations) req.locations req.removeLocations
    let reg : RegisteredSubscription := ⟨id, req.subscription, locs⟩
    let db2 := st.db.map (fun r => if r.id = id then ⟨r.id, goJoin locs, req.subscription⟩ else r)
    let idx1 := req.locations.foldl (fun idx l => bucketAppend idx l reg) st.subscriptions
    let idx2 := req.removeLocations.foldl (fun idx l => bucketRemove idx l reg.id) idx1
    .ok (⟨db2, idx2⟩, reg)

/-- deleteSubscription: runs DELETE FROM subscriptions WHERE id = ?. The
statement reports no error when the id matches no row, and the function
never touches the in-memory index. -/
def deleteSubscription (st : RegistryState) (regID : Nat) :
    Except SQLError RegistryState :=
  .ok ⟨st.db.filter (fun r => decide (r.id ≠ regID)), st.subscriptions⟩

/-- The set the dispatcher reads for a location: its index bucket. -/
def subscribersOf (st : RegistryState) (l : String) : List RegisteredSubscription :=
  st.subscriptions l

/-- State after initDB and main's per-location initialisation: empty table,
every bucket empty. -/
def initialRegistry : RegistryState := ⟨[], fun _ => []⟩

/-- HTTP status the handler writes for a PATCH of the given id: 404 only
when the registry operation reports sql.ErrNoRows, 500 for any other error,
200 on success. -/
def patchStatus (st : RegistryState) (id : Nat) (req : UpdateSubscriptionReq) : Nat :=
  match updateRegisteredSubscription st id req with
  | .error e => if errorsIsNoRows e then 404 else 500
  | .ok _ => 200

/-- HTTP status the handler writes for a DELETE of the given id: 404 only
on sql.ErrNoRows, 500 for any other error, 204 on success. -/
def deleteStatus (st : RegistryState) (id : Nat) : Nat :=
  match deleteSubscription st id with
  | .error e => if errorsIsNoRows e then 404 else 500
  | .ok _ => 204

/-- The tables initDB creates: only the subscriptions table exists. -/
def dbTables : List String := ["subscriptions"]

/-- Observable outcome of one generation run for one location: the summary
cache entry for the location after the run, the value sent on the
location's summary channel (if any), and the persisted summaries store
(which no statement in the source ever writes). -/
structure RunOutcome where
  cachedSummary : Option String
  emitted : Option String
  dbSummaries : List (String × String)
deriving DecidableEq

/-- updateSummary for one location, as a function of its collaborators: the
weather fetch result (transport or read error, or an HTTP status code
paired with the body — the source never inspects the status), the
summarization call, the previous cache entry, the location's subscriber
bucket, and the persisted summaries store. On a fetch or summarization
error the run returns before the cache write and the channel send; on
success it stores the summary and sends it on the channel only when the
bucket is non-empty. No branch writes the persisted summaries store. -/
def updateSummary (fetch : Except String (Nat × String))
    (generate : String → Except String String)
    (prevSummary : Option String) (subs : List RegisteredSubscription)
    (dbSummaries : List (String × String)) : RunOutcome :=
  match fetch with
  | .error _ => ⟨prevSummary, none, dbSummaries⟩
  | .ok r =>
    match generate r.2 with
    | .error _ => ⟨prevSummary, none, dbSummaries⟩
    | .ok summary =>
      ⟨some summary, if 0 < subs.length then some summary else none, dbSummaries⟩

/-- The body of one dispatcher round in listenForSummaryUpdates: one
delivery attempt per entry of the snapshot, each recorded with its own
success or failure. -/
def fanOut (subs : List RegisteredSubscription)
    (deliver : RegisteredSubscription → Bool) :
    List (RegisteredSubscription × Bool) :=
  subs.map (fun s => (s, deliver s))

/-- Delivery attempts a generation run causes: none when the run emitted no
signal, otherwise one fan-out round over the location's bucket. -/
def deliveryAttempts (out : RunOutcome) (subs : List RegisteredSubscription)
    (deliver : RegisteredSubscription → Bool) :
    List (RegisteredSubscription × Bool) :=
  match out.emitted with
  | none => []
  | some _ => fanOut subs deliver

/-- Two-digit zero padding, as Go's time layout components 01 and 02. -/
def pad2 (n : Nat) : String := if n < 10 then "0" ++ toString n else toString n

/-- Go time.Format with the layout string used by updateSummary,
"2006-02-01": in a Go layout 2006 is the year, 02 the day of month, and 01
the month, so this layout renders year-DAY-month. -/
def formatDate20060201 (year month day : Nat) : String :=
  toString year ++ "-" ++ pad2 day ++ "-" ++ pad2 month

/-- Modelled from the spec: the current local date "formatted as a correct
year-month-day date", i.e. the ISO year-month-day rendering the spec
requires of the date placed in the prompt. -/
def specYearMonthDay (year month day : Nat) : String :=
  toString year ++ "-" ++ pad2 month ++ "-" ++ pad2 day

/-- Capacity of each per-location summary channel: make(chan string) with
no capacity argument creates an unbuffered channel. -/
def summaryChanCapacity : Nat := 0

/-- Channel-send semantics for a plain send statement: the send completes
now exactly when a receiver is at its receive point or the buffer has free
space; otherwise the sender stays blocked. -/
def sendCompletes (capacity pending : Nat) (receiverReady : Bool) : Bool :=
  receiverReady || decide (pending < capacity)

/-- The handoff property claimed of the generator: under every dispatcher
behaviour (receiverReady as a function of time), the send on the summary
channel completes at some time. -/
def emissionEventuallyCompletes : Prop :=
  ∀ ready : Nat → Bool, ∃ t, sendCompletes summaryChanCapacity 0 (ready t) = true

/-- loadSubscriptions rebuilds a registration's location list by splitting
the persisted locations column on commas. -/
def loadedLocations (locColumn : String) : List String := goSplit locColumn

/-- The locations column register/update persist: the comma-joined list. -/
def persistedLocColumn (locs : List String) : String := goJoin locs

/-- Registry state after registering subscription 7 for location nyc. -/
def c1Registered : RegistryState × RegisteredSubscription :=
  registerSubscription initialRegistry ⟨"blob", ["nyc"], []⟩ 7

/-- Registry state after then deleting subscription 7. -/
def c1AfterDelete : RegistryState :=
  match deleteSubscription c1Registered.1 7 with
  | .ok st => st
  | .error _ => initialRegistry

/-- C1: the registry consistency invariant fails at remove. Register
subscription 7 for nyc, then delete it: the delete succeeds and removes the
persisted row, yet the nyc index bucket still holds the subscription, so
subscribersOf nyc is not the set of subscriptions whose current location
set contains nyc (that set is empty). -/
theorem c1_remove_leaves_index_bucket :
    deleteStatus c1Registered.1 7 = 204 ∧
    c1AfterDelete.db = [] ∧
    subscribersOf c1AfterDelete "nyc" = [⟨7, "blob", ["nyc"]⟩] := by
  decide

/-- Registry state and record from registering with a non-adjacent
duplicated key. -/
def c3Result : RegistryState × RegisteredSubscription :=
  registerSubscription initialRegistry ⟨"blob", ["nyc", "sf", "nyc"], []⟩ 7

/-- Registry state from registering with an adjacent duplicated key. -/
def c3AdjacentResult : RegistryState × RegisteredSubscription :=
  registerSubscription initialRegistry ⟨"blob", ["nyc", "nyc"], []⟩ 8

/-- C3: register with the non-adjacent duplicate list [nyc, sf, nyc] keeps
the duplicate, because slices.Compact removes only adjacent repeats: the
stored location set holds nyc twice, and the subscription is appended to
the nyc bucket twice — a duplicate fan-out entry, refuting exactly-once.
With the adjacent duplicate [nyc, nyc] the stored set and the nyc bucket do
hold the key once, but the in-place Compact zeroes the dropped tail of the
request list, so the index loop also files the subscription under the
empty-string key. -/
theorem c3_register_duplicates_fanout_entry :
    c3Result.2.locations = ["nyc", "sf", "nyc"] ∧
    (subscribersOf c3Result.1 "nyc").length = 2 ∧
    c3AdjacentResult.2.locations = ["nyc"] ∧
    subscribersOf c3AdjacentResult.1 "nyc" = [⟨8, "blob", ["nyc"]⟩] ∧
    subscribersOf c3AdjacentResult.1 "" = [⟨8, "blob", ["nyc"]⟩] := by
  decide

/-- C4: for an id with no persisted row, update fails with the rows-closed
scan error rather than sql.ErrNoRows, so the handler answers 500, not 404;
and delete reports no error at all, so the handler answers 204 — remove
succeeds although the id does not exist. -/
theorem c4_missing_id_not_notfound :
    patchStatus initialRegistry 42 ⟨"blob", [], []⟩ = 500 ∧
    deleteStatus initialRegistry 42 = 204 ∧
    errorsIsNoRows SQLError.rowsClosed = false := by
  decide

/-- C8: the layout 2006-02-01 renders the local date 11 May 2025 as
2025-11-05 (year-day-month), which differs from the correct year-month-day
rendering 2025-05-11 the claim requires of the prompt. -/
theorem c8_prompt_date_is_year_day_month :
    formatDate20060201 2025 5 11 = "2025-11-05" ∧
    specYearMonthDay 2025 5 11 = "2025-05-11" ∧
    formatDate20060201 2025 5 11 ≠ specYearMonthDay 2025 5 11 := by
  decide

/-- C2: the update pipeline does not deduplicate. Starting from the
persisted set [nyc, sf], one update adding nyc yields [nyc, sf, nyc]
(the claimed deduplicated set is [nyc, sf]), and a second identical update
still yields [nyc, sf, nyc], in which nyc appears twice, not once. -/
theorem c2_update_keeps_nonadjacent_duplicates :
    newLocations ["nyc", "sf"] ["nyc"] [] = ["nyc", "sf", "nyc"] ∧
    newLocations (newLocations ["nyc", "sf"] ["nyc"] []) ["nyc"] [] = ["nyc", "sf", "nyc"] ∧
    (["nyc", "sf", "nyc"] : List String).count "nyc" = 2 := by
  decide

theorem filter_goCompact_filter {α : Type} [DecidableEq α] (p : α → Bool)
    (l : List α) : (goCompact (l.filter p)).filter p = goCompact (l.filter p) :=
  List.filter_eq_self.mpr fun _ ha =>
    List.of_mem_filter (mem_goCompact ha)

/-- C2 amended: the new location set is the appended list with the removed
keys filtered out and only adjacent duplicates collapsed; two consecutive
updates that add the same single key x leave x in the set exactly once,
provided x was not already in the existing set and is not being removed. -/
theorem c2_amended_double_add_single_occurrence (e remove : List String)
    (x : String) (hxe : x ∉ e) (hxr : x ∉ remove) :
    (newLocations (newLocations e [x] remove) [x] remove).count x = 1 := by
  set p : String → Bool := fun l => decide (l ∉ remove) with hp
  have hpx : p x = true := by simp [hp, hxr]
  have hfilter_single : ∀ l : List String, (l ++ [x]).filter p = l.filter p ++ [x] := by
    intro l
    simp [List.filter_append, hpx]
  set g0 : List String := e.filter p with hg0
  have hxg0 : x ∉ g0 := fun hx => hxe (List.mem_of_mem_filter hx)
  have h1 : newLocations e [x] remove = goCompact g0 ++ [x] := by
    rw [newLocations, hfilter_single e, goCompact_append_singleton x _ hxg0]
  have hxcg0 : x ∉ goCompact g0 := fun hx => hxg0 (mem_goCompact hx)
  have h2 : newLocations (newLocations e [x] remove) [x] remove
      = goCompact (goCompact g0) ++ [x] := by
    rw [h1, newLocations, hfilter_single, List.filter_append,
      filter_goCompact_filter]
    have : goCompact g0 ++ ([x].filter p) ++ [x] = goCompact g0 ++ [x, x] := by
      simp [hpx]
    rw [this, goCompact_append_pair, goCompact_append_singleton x _ hxcg0]
  have hxccg0 : x ∉ goCompact (goCompact g0) := fun hx => hxcg0 (mem_goCompact hx)
  rw [h2, List.count_append, List.count_eq_zero.mpr hxccg0]
  simp [List.count_singleton]

/-- Closed instance of the amended C2 statement at a concrete input. -/
theorem c2_amended_double_add_witness :
    (newLocations (newLocations ["sf"] ["nyc"] []) ["nyc"] []).count "nyc" = 1 :=
  c2_amended_double_add_single_occurrence ["sf"] [] "nyc" (by decide) (by decide)

/-- C5: a fetch that comes back with a non-success status and a malformed
body is not detected: the run proceeds, and when summarization succeeds the
cache entry changes from the pre-seeded X to the new summary and a signal
is emitted — the run is not the claimed no-op. -/
theorem c5_status_and_body_not_checked :
    updateSummary (.ok (500, "not json")) (fun _ => .ok "S") (some "X")
        [⟨7, "blob", ["la"]⟩] []
      = ⟨some "S", some "S", []⟩ ∧
    (some "S" : Option String) ≠ some "X" := by
  decide

/-- C5 amended: when the fetch fails at the transport level (request
creation, network, or body-read error), the run aborts with no state
change: the cache keeps the previous summary, no signal is emitted, and
zero delivery attempts occur. -/
theorem c5_amended_transport_failure_is_noop (msg : String)
    (generate : String → Except String String) (prevSummary : Option String)
    (subs : List RegisteredSubscription) (dbs : List (String × String))
    (deliver : RegisteredSubscription → Bool) :
    updateSummary (.error msg) generate prevSummary subs dbs
      = ⟨prevSummary, none, dbs⟩ ∧
    deliveryAttempts (updateSummary (.error msg) generate prevSummary subs dbs)
        subs deliver = [] := by
  exact ⟨rfl, rfl⟩

/-- C6: a successful generation run persists nothing: starting from an
empty summaries store, the run produces and caches the summary S, yet the
store is still empty afterwards — and initDB creates no summaries table at
all. -/
theorem c6_no_summary_persistence :
    (updateSummary (.ok (200, "weather")) (fun _ => .ok "S") none [] []).dbSummaries
      = [] ∧
    (updateSummary (.ok (200, "weather")) (fun _ => .ok "S") none [] []).cachedSummary
      = some "S" ∧
    "summaries" ∉ dbTables := by
  decide

/-- C6 amended: after a run whose fetch and summarization succeed, the
summary lives only in the in-memory cache; the persisted summaries store is
exactly what it was before the run. -/
theorem c6_amended_cache_only (status : Nat) (body : String)
    (generate : String → Except String String) (prevSummary : Option String)
    (subs : List RegisteredSubscription) (dbs : List (String × String))
    (s : String) (h : generate body = .ok s) :
    (updateSummary (.ok (status, body)) generate prevSummary subs dbs).cachedSummary
      = some s ∧
    (updateSummary (.ok (status, body)) generate prevSummary subs dbs).dbSummaries
      = dbs := by
  simp [updateSummary, h]

/-- Closed instance of the amended C6 statement at a concrete input. -/
theorem c6_amended_cache_only_witness :
    (updateSummary (.ok (200, "weather")) (fun _ => .ok "T") none [] []).cachedSummary
      = some "T" ∧
    (updateSummary (.ok (200, "weather")) (fun _ => .ok "T") none [] []).dbSummaries
      = [] :=
  c6_amended_cache_only 200 "weather" (fun _ => .ok "T") none [] [] "T" rfl

theorem countP_add_countP_not (subs : List RegisteredSubscription)
    (d : RegisteredSubscription → Bool) :
    subs.countP d + subs.countP (fun s => !(d s)) = subs.length := by
  induction subs with
  | nil => simp
  | cons a t ih =>
    cases h : d a <;> simp [List.countP_cons, h] <;> omega

/-- C7: one fan-out round over the snapshot of a location's subscribers
issues exactly one delivery attempt per snapshot entry (the attempt list
projects back to the snapshot, so no failure suppresses another entry's
attempt), and with k attempts configured to fail, exactly N - k succeed. -/
theorem c7_fanout_one_attempt_each_failures_isolated (st : RegistryState)
    (l : String) (deliver : RegisteredSubscription → Bool) :
    (fanOut (subscribersOf st l) deliver).map Prod.fst = subscribersOf st l ∧
    (fanOut (subscribersOf st l) deliver).length = (subscribersOf st l).length ∧
    (fanOut (subscribersOf st l) deliver).countP (fun a => a.2)
      = (subscribersOf st l).length
        - (subscribersOf st l).countP (fun s => !(deliver s)) := by
  refine ⟨by simp [fanOut, Function.comp_def], by simp [fanOut], ?_⟩
  have hmap : (fanOut (subscribersOf st l) deliver).countP (fun a => a.2)
      = (subscribersOf st l).countP deliver := by
    simp [fanOut, List.countP_map, Function.comp_def]
  have hsum := countP_add_countP_not (subscribersOf st l) deliver
  omega

/-- C9: the claim that the generator never blocks indefinitely on emission
fails: the summary channel is unbuffered, so against a dispatcher that is
never at its receive point (for example stuck mid-round), the send never
completes. -/
theorem c9_emission_can_block_forever : ¬ emissionEventuallyCompletes := by
  intro h
  rcases h (fun _ => false) with ⟨t, ht⟩
  simp [sendCompletes, summaryChanCapacity] at ht

/-- C9 amended: emission is a synchronous rendezvous: on the capacity-zero
summary channel a send completes exactly when the dispatcher is currently
at its receive point, whatever is pending; no buffering or bound softens
the handoff. -/
theorem c9_amended_emission_is_rendezvous (pending : Nat) (receiverReady : Bool) :
    sendCompletes summaryChanCapacity pending receiverReady = receiverReady := by
  simp [sendCompletes, summaryChanCapacity]

/-- C10: persisting a location list and reloading it at startup round-trips
exactly when the list is non-empty and its keys are comma-free, while the
empty list comes back as the single empty-string key, because joining with
commas and then splitting the empty string yields one empty element. -/
theorem c10_locations_roundtrip (ls : List String)
    (h : ∀ l ∈ ls, ',' ∉ l.data) :
    loadedLocations (persistedLocColumn ls)
      = if ls = [] then [""] else ls := by
  unfold loadedLocations persistedLocColumn goSplit goJoin
  rw [goSplitComma_goJoinComma]
  · cases ls with
    | nil => simp
    | cons a tl =>
      rw [if_neg (by simp), if_neg (by simp), List.map_map]
      have heta : ∀ s : String, (⟨s.data⟩ : String) = s := fun s => rfl
      simp [Function.comp_def, heta]
  · intro l hl
    rcases List.mem_map.mp hl with ⟨s, hs, rfl⟩
    exact h s hs

/-- Closed instance of the C10 round trip at a concrete input. -/
theorem c10_locations_roundtrip_witness :
    loadedLocations (persistedLocColumn ["nyc", "sf"]) = ["nyc", "sf"] := by
  have h := c10_locations_roundtrip ["nyc", "sf"] (by decide)
  simpa using h

end SevenAM
